import Mathlib

set_option maxHeartbeats 1000000

/-!
Verification of the data-ingestion and session-state core of the
InsightData analyst app (src/app.py and src/function.py).

A pandas DataFrame is modelled as a list of column names plus a list of
rows of optional cells (`none` models NaN).  The Streamlit session state
is an explicit record; `agent_executor = none` models the key being
absent from the session dictionary (popped).  The module-level ingestion
branches of app.py are modelled as state-transition functions.  A Python
exception escaping the per-file loop is modelled explicitly, because the
surrounding try/except blocks only render messages and mutate no state;
note that `st.stop()` raises an exception derived from `Exception` and is
therefore also swallowed by those handlers.
-/

/-- Cell of a DataFrame: `none` models NaN / a missing value. -/
abbrev Cell := Option String

/-- Model of a pandas DataFrame: named columns and rows of cells. -/
structure DataFrame where
  colNames : List String
  rows : List (List Cell)
deriving DecidableEq

/-- A row is entirely missing (pandas `isna().all()` along the row). -/
def rowAllNA (r : List Cell) : Bool := r.all (fun c => c.isNone)

/-- Cell of row `r` at column position `j` (pandas rows are rectangular). -/
def cellAt (r : List Cell) (j : Nat) : Cell := r.getD j none

/-- Column `j` holds at least one non-missing cell among `rows`. -/
def colNonEmpty (rows : List (List Cell)) (j : Nat) : Bool :=
  rows.any (fun r => (cellAt r j).isSome)

/-- Embeds `df.dropna(how="all", axis=0)` (app.py lines 323 and 459). -/
def dropEmptyRows (df : DataFrame) : DataFrame :=
  { df with rows := df.rows.filter (fun r => !rowAllNA r) }

/-- Embeds `df.dropna(how="all", axis=1)` (app.py lines 326 and 462),
applied after the row drop: a column is kept when it still holds a
non-missing cell in the surviving rows. -/
def dropEmptyCols (df : DataFrame) : DataFrame :=
  let keep := (List.range df.colNames.length).filter (fun j => colNonEmpty df.rows j)
  { colNames := keep.map (fun j => df.colNames.getD j ""),
    rows := df.rows.map (fun r => keep.map (fun j => cellAt r j)) }

/-- Pandas `df.empty`: true when either axis has length zero. -/
def dfEmpty (df : DataFrame) : Bool := df.rows.isEmpty || df.colNames.isEmpty

/-- The two dropna calls together with the removed-row and removed-column
counts computed as `initial_rows - df.shape[0]` and
`initial_cols - df.shape[1]` (app.py lines 320-331 and 456-467). -/
def cleanCounts (df : DataFrame) : DataFrame × Nat × Nat :=
  let cleaned := dropEmptyCols (dropEmptyRows df)
  (cleaned, df.rows.length - cleaned.rows.length,
   df.colNames.length - cleaned.colNames.length)

/-- Helper for `df.drop_duplicates()`: keep the first occurrence of each
row value, dropping later exact duplicates. -/
def dedupAux (seen : List (List Cell)) : List (List Cell) → List (List Cell)
  | [] => []
  | r :: rs => if seen.contains r then dedupAux seen rs else r :: dedupAux (r :: seen) rs

/-- Embeds `df.drop_duplicates()` (app.py lines 350 and 486). -/
def dedupDF (df : DataFrame) : DataFrame := { df with rows := dedupAux [] df.rows }

/-- One chat transcript entry (an item of `st.session_state.messages`). -/
structure Message where
  role : String
  content : String
deriving DecidableEq

/-- The Streamlit session-state fields used by the core (function.py
`init_state`).  The `llm`, `agent_memory` and `agent_executor` handles
are opaque and modelled by presence only; `agent_executor = none` models
the key being absent from the session dictionary. -/
structure SessionState where
  messages : List Message
  processed_files : List String
  final_df : List DataFrame
  llm : Option Unit
  agent_memory : Option Unit
  agent_executor : Option Unit
  google_api_key : String
deriving DecidableEq

/-- Embeds `reset_conversation` (function.py lines 32-39). -/
def reset_conversation (s : SessionState) : SessionState := { s with messages := [] }

/-- Embeds `reset_state` (function.py lines 41-58): clears transcript,
tracked files, tables, memory and llm, pops the agent executor, and does
not touch the stored API key. -/
def reset_state (s : SessionState) : SessionState :=
  { s with messages := [], processed_files := [], final_df := [],
           agent_memory := none, llm := none, agent_executor := none }

/-- Embeds `change_on_api_key` (function.py lines 60-75). -/
def change_on_api_key (s : SessionState) : SessionState :=
  { s with messages := [], processed_files := [], final_df := [],
           agent_memory := none, llm := none, agent_executor := none }

/-- Embeds `change_on_lan` (function.py lines 77-90). -/
def change_on_lan (s : SessionState) : SessionState := { s with agent_executor := none }

/-- Character-wise lowering, modelling Python `str.lower()` on the ASCII
filenames the app deals with. -/
def lowerStr (s : String) : String := String.mk (s.data.map Char.toLower)

/-- Python `str.endswith`. -/
def endsWithPy (s p : String) : Bool := p.data.isSuffixOf s.data

/-- Python `os.path.splitext(...)[-1]` applied to a slash-free filename:
the suffix starting at the last dot, or empty when the only dots are the
leading ones of the name. -/
def pyExt (name : String) : String :=
  let cs := name.data
  match cs.reverse.findIdx? (fun c => c == '.') with
  | none => ""
  | some k =>
    if (cs.take (cs.length - k - 1)).any (fun c => c != '.') then
      String.mk ('.' :: (cs.reverse.take k).reverse)
    else ""

/-- An uploaded file: its name together with the outcome of the matching
pandas reader on its bytes.  `parsed = none` models the reader raising
(a corrupt or mis-encoded payload); `parsed = some df` models a
successful parse. -/
structure UploadedFile where
  name : String
  parsed : Option DataFrame
deriving DecidableEq

/-- Outcome of calling `read_files`: a returned DataFrame, the returned
`None` for an unsupported extension, or an exception escaping from the
pandas reader. -/
inductive ReadOutcome
  | ok (df : DataFrame)
  | failure
  | unsupported
deriving DecidableEq

/-- Embeds `read_files` (function.py lines 92-115): lowercase the name,
take its extension, and dispatch on `.csv` / `.xlsx`; any other
extension yields `None`. -/
def read_files (f : UploadedFile) : ReadOutcome :=
  let filenames := lowerStr f.name
  let ext := pyExt filenames
  if ext == ".csv" && endsWithPy filenames ".csv" then
    match f.parsed with
    | some df => ReadOutcome.ok df
    | none => ReadOutcome.failure
  else if ext == ".xlsx" && endsWithPy filenames ".xlsx" then
    match f.parsed with
    | some df => ReadOutcome.ok df
    | none => ReadOutcome.failure
  else ReadOutcome.unsupported

/-- Python `f.startswith("GSheet_")` (app.py line 268). -/
def cloudMarked (s : String) : Bool := "GSheet_".data.isPrefixOf s.data

/-- Result of the local-mode per-file loop (app.py lines 298-355): the
tables appended to `final_df` during the loop, the names collected in
`new_filenames`, and whether an exception aborted the loop. -/
structure LoopResult where
  tables : List DataFrame
  names : List String
  aborted : Bool
deriving DecidableEq

/-- Embeds the local-mode per-file loop (app.py lines 298-355).  The
cleaning toast at line 336 interpolates `virtual_filename`, a variable
only ever assigned in the URL branch of the script, so whenever cleaning
removed at least one row or column the local branch raises `NameError`;
the zero-rows-after-cleaning warning at line 340 has the same flaw (and
is in fact unreachable, since `df` can only be empty after cleaning when
cleaning removed something).  Both are modelled as an aborted loop, as is
a reader exception escaping `read_files`. -/
def processLoop : List UploadedFile → LoopResult
  | [] => ⟨[], [], false⟩
  | f :: fs =>
    match read_files f with
    | ReadOutcome.unsupported => processLoop fs
    | ReadOutcome.failure => ⟨[], [], true⟩
    | ReadOutcome.ok df =>
      if dfEmpty df then processLoop fs
      else if 0 < (cleanCounts df).2.1 ∨ 0 < (cleanCounts df).2.2 then ⟨[], [], true⟩
      else if dfEmpty (cleanCounts df).1 then ⟨[], [], true⟩
      else
        ⟨dedupDF (cleanCounts df).1 :: (processLoop fs).tables,
         f.name :: (processLoop fs).names,
         (processLoop fs).aborted⟩

/-- The table a file contributes when it passes every check of the
local-mode loop, and `none` when it is skipped or triggers the abort. -/
def acceptedTable (f : UploadedFile) : Option DataFrame :=
  match read_files f with
  | ReadOutcome.ok df =>
    if dfEmpty df then none
    else if 0 < (cleanCounts df).2.1 ∨ 0 < (cleanCounts df).2.2 then none
    else if dfEmpty (cleanCounts df).1 then none
    else some (dedupDF (cleanCounts df).1)
  | _ => none

/-- Embeds the cloud-to-local mode-switch flush (app.py lines 262-276). -/
def flushIfCloud (s : SessionState) : SessionState :=
  if s.processed_files.any cloudMarked then
    { s with final_df := [], processed_files := [] }
  else s

/-- Embeds the already-processed filter (app.py lines 288-290), which the
script runs on the state left by the mode-switch flush. -/
def filesToProcess (s : SessionState) (files : List UploadedFile) : List UploadedFile :=
  files.filter (fun f => !((flushIfCloud s).processed_files.contains f.name))

/-- Embeds the whole local-mode ingestion branch (app.py lines 262-388):
mode-switch flush, already-processed filter, then the per-file loop.
When the loop aborts on an exception, the tables appended so far stay in
`final_df` (line 355 appends into live session state), while the
`processed_files.extend` (line 358) and the `agent_executor` pop
(line 362) are skipped: the except handler at lines 368-388 only renders
an error message. -/
def runLocalBatch (s : SessionState) (files : List UploadedFile) : SessionState :=
  if (filesToProcess s files).isEmpty then flushIfCloud s
  else if (processLoop (filesToProcess s files)).aborted then
    { flushIfCloud s with
        final_df := (flushIfCloud s).final_df ++ (processLoop (filesToProcess s files)).tables }
  else
    { flushIfCloud s with
        final_df := (flushIfCloud s).final_df ++ (processLoop (filesToProcess s files)).tables,
        processed_files :=
          (flushIfCloud s).processed_files ++ (processLoop (filesToProcess s files)).names,
        agent_executor := none }

/-- Character class `[a-zA-Z0-9-_]` of the sheet-id pattern. -/
def idChar (c : Char) : Bool := c.isAlpha || c.isDigit || c == '-' || c == '_'

/-- Match of the pattern `/d/([a-zA-Z0-9-_]+)` anchored at the head of the
character list: the captured group is the maximal run of id characters. -/
def dIdAt (cs : List Char) : Option (List Char) :=
  match cs with
  | '/' :: 'd' :: '/' :: tail =>
    let run := tail.takeWhile idChar
    if run.isEmpty then none else some run
  | _ => none

/-- Embeds `re.search(r"/d/([a-zA-Z0-9-_]+)", link)` (app.py line 393):
the leftmost match wins and its group is returned. -/
def findDId : List Char → Option (List Char)
  | [] => none
  | c :: rest =>
    match dIdAt (c :: rest) with
    | some r => some r
    | none => findDId rest

/-- Match of the pattern `[?#]gid=([0-9]+)` anchored at the head of the
character list. -/
def gidAt (cs : List Char) : Option (List Char) :=
  match cs with
  | c :: 'g' :: 'i' :: 'd' :: '=' :: tail =>
    if c == '?' || c == '#' then
      let run := tail.takeWhile Char.isDigit
      if run.isEmpty then none else some run
    else none
  | _ => none

/-- Embeds `re.search(r"[?#]gid=([0-9]+)", link)` (app.py line 417). -/
def findGid : List Char → Option (List Char)
  | [] => none
  | c :: rest =>
    match gidAt (c :: rest) with
    | some r => some r
    | none => findGid rest

/-- Python `link.split("/")` on the character list. -/
def splitSlash : List Char → List (List Char)
  | [] => [[]]
  | '/' :: rest => [] :: splitSlash rest
  | c :: rest =>
    match splitSlash rest with
    | [] => [[c]]
    | g :: gs => (c :: g) :: gs

/-- Python `uploaded_link.split("/")[-1]` (app.py line 404). -/
def lastComponent (link : String) : String :=
  String.mk ((splitSlash link.data).getLastD [])

/-- The export parameters built at app.py lines 419-431: a specific tab
when a grid id was found, the default first tab otherwise. -/
def exportParams (g : Option (List Char)) : String :=
  match g with
  | some gid => "format=csv&gid=" ++ String.mk gid
  | none => "format=csv"

/-- The export endpoint built at app.py line 434. -/
def exportUrlOf (sid : List Char) (g : Option (List Char)) : String :=
  "https://docs.google.com/spreadsheets/d/" ++ String.mk sid ++ "/export?" ++ exportParams g

/-- Classification of the pasted link (app.py lines 393-434): invalid, a
direct CSV link, or a hosted-spreadsheet export; the last two carry the
export URL that will be fetched and the synthesized `virtual_filename`. -/
inductive UrlClass
  | invalid
  | directCsv (url : String) (vfn : String)
  | gsheet (url : String) (vfn : String)
deriving DecidableEq

/-- True exactly for the hosted-spreadsheet classification. -/
def isGsheetClass : UrlClass → Bool
  | UrlClass.gsheet _ _ => true
  | _ => false

/-- Embeds the URL classification of app.py lines 393-434.  Note the
branch order of the source: the error case first, then the `.csv` suffix
case, and the hosted-spreadsheet case only as the final `else`. -/
def classifyUrl (link : String) : UrlClass :=
  if (findDId link.data).isNone && !(endsWithPy link ".csv") then UrlClass.invalid
  else if endsWithPy link ".csv" then
    UrlClass.directCsv link ("GSheet_" ++ lastComponent link)
  else
    match findDId link.data with
    | some sid => UrlClass.gsheet (exportUrlOf sid (findGid link.data)) ("GSheet_" ++ String.mk sid)
    | none => UrlClass.invalid

/-- Embeds the URL-mode fetch, validation, cleaning and overwrite
(app.py lines 437-509) for an already-classified link.  `fetch` models
`pd.read_csv(export_url)`; `none` models the call raising.  Every failure
leaves the state untouched: the `st.stop()` calls and the except handler
at lines 511-539 only render messages. -/
def urlPipeline (s : SessionState) (url vfn : String)
    (fetch : String → Option DataFrame) : SessionState :=
  match fetch url with
  | none => s
  | some df =>
    if dfEmpty df then s
    else if dfEmpty (cleanCounts df).1 then s
    else
      { s with final_df := [dedupDF (cleanCounts df).1],
               processed_files := [vfn],
               agent_executor := none }

/-- Whether the URL-mode fetch and validations all succeed for an
already-classified link. -/
def urlPipelineOk (url : String) (fetch : String → Option DataFrame) : Bool :=
  match fetch url with
  | none => false
  | some df => !dfEmpty df && !dfEmpty (cleanCounts df).1

/-- Embeds the whole URL-mode ingestion branch (app.py lines 390-539). -/
def runUrlImport (s : SessionState) (link : String)
    (fetch : String → Option DataFrame) : SessionState :=
  match classifyUrl link with
  | UrlClass.invalid => s
  | UrlClass.directCsv url vfn => urlPipeline s url vfn fetch
  | UrlClass.gsheet url vfn => urlPipeline s url vfn fetch

/-- Whether the whole URL-mode import succeeds. -/
def urlImportOk (link : String) (fetch : String → Option DataFrame) : Bool :=
  match classifyUrl link with
  | UrlClass.invalid => false
  | UrlClass.directCsv url _ => urlPipelineOk url fetch
  | UrlClass.gsheet url _ => urlPipelineOk url fetch

/-- Equal length of the table list and the tracked-identifier list. -/
def statePaired (s : SessionState) : Prop :=
  s.final_df.length = s.processed_files.length

/-- Concrete table with one all-empty row and one all-empty column. -/
def dfGhost : DataFrame := ⟨["A", "B"], [[some "1", none], [none, none]]⟩

/-- Concrete clean single-cell table. -/
def dfGood : DataFrame := ⟨["X"], [[some "v"]]⟩

/-- Empty session right after `init_state`, with an API key entered. -/
def s0 : SessionState := ⟨[], [], [], none, none, none, "k"⟩

/-- CSV upload whose parsed frame holds ghost data. -/
def fileGhost : UploadedFile := ⟨"a.csv", some dfGhost⟩

/-- CSV upload whose pandas reader raises (corrupt payload). -/
def fileCorrupt : UploadedFile := ⟨"b.csv", none⟩

/-- Well-formed CSV upload. -/
def fileGood : UploadedFile := ⟨"c.csv", some dfGood⟩

/-- The cloud marker is a prefix of every synthesized identifier. -/
theorem cloudMarked_append (t : String) : cloudMarked ("GSheet_" ++ t) = true := by
  unfold cloudMarked
  rw [String.data_append, List.isPrefixOf_iff_prefix]
  exact List.prefix_append _ _

/-- Unfolding equation: the loop skips a file of unsupported format and
continues with the rest of the batch. -/
theorem processLoop_cons_unsupported (f : UploadedFile) (fs : List UploadedFile)
    (h : read_files f = ReadOutcome.unsupported) :
    processLoop (f :: fs) = processLoop fs := by
  conv_lhs => unfold processLoop
  rw [h]

/-- Unfolding equation: a reader exception aborts the loop at once. -/
theorem processLoop_cons_failure (f : UploadedFile) (fs : List UploadedFile)
    (h : read_files f = ReadOutcome.failure) :
    processLoop (f :: fs) = ⟨[], [], true⟩ := by
  conv_lhs => unfold processLoop
  rw [h]

/-- Unfolding equation for a file whose reader returns a frame. -/
theorem processLoop_cons_ok (f : UploadedFile) (fs : List UploadedFile) (df : DataFrame)
    (h : read_files f = ReadOutcome.ok df) :
    processLoop (f :: fs) =
      (if dfEmpty df then processLoop fs
       else if 0 < (cleanCounts df).2.1 ∨ 0 < (cleanCounts df).2.2 then ⟨[], [], true⟩
       else if dfEmpty (cleanCounts df).1 then ⟨[], [], true⟩
       else ⟨dedupDF (cleanCounts df).1 :: (processLoop fs).tables,
             f.name :: (processLoop fs).names, (processLoop fs).aborted⟩) := by
  conv_lhs => unfold processLoop
  rw [h]

/-- The per-file loop collects exactly as many tables as names. -/
theorem processLoop_len (fs : List UploadedFile) :
    (processLoop fs).tables.length = (processLoop fs).names.length := by
  induction fs with
  | nil => rfl
  | cons f fs ih =>
    cases hr : read_files f with
    | unsupported => rw [processLoop_cons_unsupported f fs hr]; exact ih
    | failure => rw [processLoop_cons_failure f fs hr]; rfl
    | ok df =>
      rw [processLoop_cons_ok f fs df hr]
      by_cases h1 : dfEmpty df = true
      · rw [if_pos h1]; exact ih
      · rw [if_neg h1]
        by_cases h2 : 0 < (cleanCounts df).2.1 ∨ 0 < (cleanCounts df).2.2
        · rw [if_pos h2]; rfl
        · rw [if_neg h2]
          by_cases h3 : dfEmpty (cleanCounts df).1 = true
          · rw [if_pos h3]; rfl
          · rw [if_neg h3]; simpa using ih

/-- Unfolding equation for the accepted-output summary of one file. -/
theorem acceptedTable_ok (f : UploadedFile) (df : DataFrame)
    (h : read_files f = ReadOutcome.ok df) :
    acceptedTable f =
      (if dfEmpty df then none
       else if 0 < (cleanCounts df).2.1 ∨ 0 < (cleanCounts df).2.2 then none
       else if dfEmpty (cleanCounts df).1 then none
       else some (dedupDF (cleanCounts df).1)) := by
  unfold acceptedTable; rw [h]


/-- Each table collected by the loop is the processed output of a file of
the batch whose name sits at the same position. -/
theorem processLoop_pairs (fs : List UploadedFile) :
    List.Forall₂ (fun t n => ∃ f, f ∈ fs ∧ f.name = n ∧ acceptedTable f = some t)
      (processLoop fs).tables (processLoop fs).names := by
  induction fs with
  | nil => exact List.Forall₂.nil
  | cons f fs ih =>
    have weaken : ∀ (t : DataFrame) (n : String),
        (∃ g, g ∈ fs ∧ g.name = n ∧ acceptedTable g = some t) →
        ∃ g, g ∈ f :: fs ∧ g.name = n ∧ acceptedTable g = some t :=
      fun t n h => by
        obtain ⟨g, hg, hn, ht⟩ := h
        exact ⟨g, List.mem_cons_of_mem f hg, hn, ht⟩
    cases hr : read_files f with
    | unsupported => rw [processLoop_cons_unsupported f fs hr]; exact ih.imp weaken
    | failure => rw [processLoop_cons_failure f fs hr]; exact List.Forall₂.nil
    | ok df =>
      rw [processLoop_cons_ok f fs df hr]
      by_cases h1 : dfEmpty df = true
      · rw [if_pos h1]; exact ih.imp weaken
      · rw [if_neg h1]
        by_cases h2 : 0 < (cleanCounts df).2.1 ∨ 0 < (cleanCounts df).2.2
        · rw [if_pos h2]; exact List.Forall₂.nil
        · rw [if_neg h2]
          by_cases h3 : dfEmpty (cleanCounts df).1 = true
          · rw [if_pos h3]; exact List.Forall₂.nil
          · rw [if_neg h3]
            refine List.Forall₂.cons ⟨f, List.mem_cons_self f fs, rfl, ?_⟩ (ih.imp weaken)
            rw [acceptedTable_ok f df hr, if_neg h1, if_neg h2, if_neg h3]

/-- The mode-switch flush preserves the pairing invariant. -/
theorem flushIfCloud_paired (s : SessionState) (hp : statePaired s) :
    statePaired (flushIfCloud s) := by
  unfold flushIfCloud
  split
  · exact rfl
  · exact hp

/-- Unfolding equation: the URL pipeline on a raising fetch. -/
theorem urlPipeline_none (s : SessionState) (url vfn : String)
    (fetch : String → Option DataFrame) (h : fetch url = none) :
    urlPipeline s url vfn fetch = s := by
  unfold urlPipeline; rw [h]

/-- Unfolding equation: the URL pipeline on a fetched frame. -/
theorem urlPipeline_some (s : SessionState) (url vfn : String)
    (fetch : String → Option DataFrame) (df : DataFrame) (h : fetch url = some df) :
    urlPipeline s url vfn fetch =
      (if dfEmpty df then s
       else if dfEmpty (cleanCounts df).1 then s
       else { s with final_df := [dedupDF (cleanCounts df).1],
                     processed_files := [vfn], agent_executor := none }) := by
  unfold urlPipeline; rw [h]

/-- Unfolding equation: pipeline success test, raising fetch. -/
theorem urlPipelineOk_none (url : String) (fetch : String → Option DataFrame)
    (h : fetch url = none) : urlPipelineOk url fetch = false := by
  unfold urlPipelineOk; rw [h]

/-- Unfolding equation: pipeline success test, fetched frame. -/
theorem urlPipelineOk_some (url : String) (fetch : String → Option DataFrame)
    (df : DataFrame) (h : fetch url = some df) :
    urlPipelineOk url fetch = (!dfEmpty df && !dfEmpty (cleanCounts df).1) := by
  unfold urlPipelineOk; rw [h]

/-- The URL pipeline preserves the pairing invariant. -/
theorem urlPipeline_paired (s : SessionState) (url vfn : String)
    (fetch : String → Option DataFrame) (hp : statePaired s) :
    statePaired (urlPipeline s url vfn fetch) := by
  cases hf : fetch url with
  | none => rw [urlPipeline_none s url vfn fetch hf]; exact hp
  | some df =>
    rw [urlPipeline_some s url vfn fetch df hf]
    by_cases h1 : dfEmpty df = true
    · rw [if_pos h1]; exact hp
    · rw [if_neg h1]
      by_cases h2 : dfEmpty (cleanCounts df).1 = true
      · rw [if_pos h2]; exact hp
      · rw [if_neg h2]; exact rfl

/-- A failing URL pipeline leaves the state exactly unchanged. -/
theorem urlPipeline_fail (s : SessionState) (url vfn : String)
    (fetch : String → Option DataFrame) (h : urlPipelineOk url fetch = false) :
    urlPipeline s url vfn fetch = s := by
  cases hf : fetch url with
  | none => exact urlPipeline_none s url vfn fetch hf
  | some df =>
    rw [urlPipelineOk_some url fetch df hf] at h
    rw [urlPipeline_some s url vfn fetch df hf]
    cases h1 : dfEmpty df with
    | true => simp
    | false =>
      rw [h1] at h
      cases h2 : dfEmpty (cleanCounts df).1 with
      | true => simp
      | false => rw [h2] at h; simp at h

/-- A succeeding URL pipeline performs exactly the single-source
overwrite. -/
theorem urlPipeline_ok (s : SessionState) (url vfn : String)
    (fetch : String → Option DataFrame) (h : urlPipelineOk url fetch = true) :
    ∃ df, fetch url = some df ∧ dfEmpty df = false ∧ dfEmpty (cleanCounts df).1 = false ∧
      urlPipeline s url vfn fetch =
        { s with final_df := [dedupDF (cleanCounts df).1],
                 processed_files := [vfn], agent_executor := none } := by
  cases hf : fetch url with
  | none => rw [urlPipelineOk_none url fetch hf] at h; cases h
  | some df =>
    rw [urlPipelineOk_some url fetch df hf] at h
    have h1 : dfEmpty df = false := by
      cases hx : dfEmpty df
      · rfl
      · rw [hx] at h; simp at h
    have h2 : dfEmpty (cleanCounts df).1 = false := by
      cases hx : dfEmpty (cleanCounts df).1
      · rfl
      · rw [hx] at h; simp at h
    refine ⟨df, rfl, h1, h2, ?_⟩
    rw [urlPipeline_some s url vfn fetch df hf, if_neg (by simp [h1]), if_neg (by simp [h2])]

/-- Unfolding equation: import of a link classified invalid. -/
theorem runUrlImport_invalid (s : SessionState) (link : String)
    (fetch : String → Option DataFrame) (h : classifyUrl link = UrlClass.invalid) :
    runUrlImport s link fetch = s := by
  unfold runUrlImport; rw [h]

/-- Unfolding equation: import of a direct CSV link. -/
theorem runUrlImport_direct (s : SessionState) (link : String)
    (fetch : String → Option DataFrame) (url vfn : String)
    (h : classifyUrl link = UrlClass.directCsv url vfn) :
    runUrlImport s link fetch = urlPipeline s url vfn fetch := by
  unfold runUrlImport; rw [h]

/-- Unfolding equation: import of a hosted-spreadsheet link. -/
theorem runUrlImport_gsheet (s : SessionState) (link : String)
    (fetch : String → Option DataFrame) (url vfn : String)
    (h : classifyUrl link = UrlClass.gsheet url vfn) :
    runUrlImport s link fetch = urlPipeline s url vfn fetch := by
  unfold runUrlImport; rw [h]

/-- Unfolding equation: success test of a link classified invalid. -/
theorem urlImportOk_invalid (link : String) (fetch : String → Option DataFrame)
    (h : classifyUrl link = UrlClass.invalid) : urlImportOk link fetch = false := by
  unfold urlImportOk; rw [h]

/-- Unfolding equation: success test of a direct CSV link. -/
theorem urlImportOk_direct (link : String) (fetch : String → Option DataFrame)
    (url vfn : String) (h : classifyUrl link = UrlClass.directCsv url vfn) :
    urlImportOk link fetch = urlPipelineOk url fetch := by
  unfold urlImportOk; rw [h]

/-- Unfolding equation: success test of a hosted-spreadsheet link. -/
theorem urlImportOk_gsheet (link : String) (fetch : String → Option DataFrame)
    (url vfn : String) (h : classifyUrl link = UrlClass.gsheet url vfn) :
    urlImportOk link fetch = urlPipelineOk url fetch := by
  unfold urlImportOk; rw [h]

/-- The three shapes a classified link can take. -/
theorem classifyUrl_shapes (link : String) :
    classifyUrl link = UrlClass.invalid ∨
    classifyUrl link = UrlClass.directCsv link ("GSheet_" ++ lastComponent link) ∨
    ∃ sid, classifyUrl link =
      UrlClass.gsheet (exportUrlOf sid (findGid link.data)) ("GSheet_" ++ String.mk sid) := by
  unfold classifyUrl
  split
  · exact Or.inl rfl
  · split
    · exact Or.inr (Or.inl rfl)
    · cases hd : findDId link.data with
      | none => exact Or.inl rfl
      | some sid => exact Or.inr (Or.inr ⟨sid, rfl⟩)

/-- C1.  The claim is the intended behaviour, but local mode violates it:
for a local CSV whose frame holds an all-empty row and an all-empty
column, `cleanCounts` would remove exactly that row and that column
(counts 1 and 1), so the report toast at app.py line 336 executes — and
raises `NameError`, because it interpolates `virtual_filename`, which the
local branch never assigns.  The exception aborts the batch: the file is
not ingested and no counts are reported to the user.  This theorem
evaluates the code at the failing input. -/
theorem c1_local_clean_report_crash :
    cleanCounts dfGhost = (⟨["A"], [[some "1"]]⟩, 1, 1) ∧
    (runLocalBatch s0 [fileGhost]).final_df = [] ∧
    (runLocalBatch s0 [fileGhost]).processed_files = [] := by decide

/-- C2, counterexample.  The claim says a parse failure is skipped with a
per-file warning and later files of the batch are still ingested.  In the
code the reader exception propagates to the batch-level handler
(app.py lines 368-388): with a corrupt `b.csv` followed by a well-formed
`c.csv`, nothing at all is ingested — the later good file is lost. -/
theorem c2_counterexample :
    read_files fileCorrupt = ReadOutcome.failure ∧
    acceptedTable fileGood = some dfGood ∧
    (runLocalBatch s0 [fileCorrupt, fileGood]).final_df = [] ∧
    (runLocalBatch s0 [fileCorrupt, fileGood]).processed_files = [] := by decide

/-- C2, amended.  A file with an unsupported extension is skipped and the
loop continues with the remaining files of the batch; a parse failure
instead raises, aborting the whole remainder of the batch. -/
theorem c2_amended :
    (∀ (f : UploadedFile) (fs : List UploadedFile),
      read_files f = ReadOutcome.unsupported → processLoop (f :: fs) = processLoop fs) ∧
    (∀ (f : UploadedFile) (fs : List UploadedFile),
      read_files f = ReadOutcome.failure → processLoop (f :: fs) = ⟨[], [], true⟩) :=
  ⟨fun f fs h => processLoop_cons_unsupported f fs h,
   fun f fs h => processLoop_cons_failure f fs h⟩

/-- Upload with an extension that read_files does not support. -/
def fileTxt : UploadedFile := ⟨"notes.txt", some dfGood⟩

/-- C2, witness: the amended theorem applied to a concrete batch. -/
theorem c2_amended_witness :
    read_files fileTxt = ReadOutcome.unsupported ∧
    processLoop [fileTxt, fileGood] = processLoop [fileGood] :=
  ⟨by decide, c2_amended.1 fileTxt [fileGood] (by decide)⟩

/-- C9.  Hard Reset clears transcript, table set, tracked identifiers,
agent handle, conversation memory and model handle, and leaves the stored
API credential unchanged. -/
theorem c9_hard_reset (s : SessionState) :
    (reset_state s).messages = [] ∧ (reset_state s).final_df = [] ∧
    (reset_state s).processed_files = [] ∧ (reset_state s).agent_executor = none ∧
    (reset_state s).agent_memory = none ∧ (reset_state s).llm = none ∧
    (reset_state s).google_api_key = s.google_api_key :=
  ⟨rfl, rfl, rfl, rfl, rfl, rfl, rfl⟩

/-- C10.  Every failing URL-mode import — invalid link, raising fetch,
frame empty before cleaning, or frame empty after cleaning — leaves the
whole session state exactly as it was. -/
theorem c10_url_failure_atomic (s : SessionState) (link : String)
    (fetch : String → Option DataFrame) (h : urlImportOk link fetch = false) :
    runUrlImport s link fetch = s := by
  cases hc : classifyUrl link with
  | invalid => exact runUrlImport_invalid s link fetch hc
  | directCsv url vfn =>
    rw [urlImportOk_direct link fetch url vfn hc] at h
    rw [runUrlImport_direct s link fetch url vfn hc]
    exact urlPipeline_fail s url vfn fetch h
  | gsheet url vfn =>
    rw [urlImportOk_gsheet link fetch url vfn hc] at h
    rw [runUrlImport_gsheet s link fetch url vfn hc]
    exact urlPipeline_fail s url vfn fetch h

/-- A populated session used to witness that failing imports change
nothing. -/
def sW : SessionState :=
  ⟨[⟨"human", "hi"⟩], ["a.csv"], [dfGood], some (), some (), some (), "k"⟩

/-- C10, witness: an invalid link against a populated session. -/
theorem c10_witness :
    urlImportOk "http://host/page" (fun _ => some dfGood) = false ∧
    runUrlImport sW "http://host/page" (fun _ => some dfGood) = sW :=
  ⟨by decide, c10_url_failure_atomic sW "http://host/page" (fun _ => some dfGood) (by decide)⟩

/-- Well-formed CSV upload used in the pairing counterexample. -/
def fileA1 : UploadedFile := ⟨"a1.csv", some dfGood⟩

/-- C3, counterexample.  A batch whose first file is accepted and whose
second file raises in the reader leaves one table in the Working Table
Set but zero tracked identifiers: the positional pairing breaks exactly
in the early-termination case the claim includes. -/
theorem c3_counterexample :
    (runLocalBatch s0 [fileA1, fileCorrupt]).final_df.length = 1 ∧
    (runLocalBatch s0 [fileA1, fileCorrupt]).processed_files.length = 0 ∧
    ¬ statePaired (runLocalBatch s0 [fileA1, fileCorrupt]) := by
  refine ⟨by decide, by decide, ?_⟩
  unfold statePaired
  decide

/-- C3, amended.  The tables and identifiers collected by the per-file
loop are positionally paired with the originating files, and the pairing
invariant of the session is preserved by every local batch whose loop
completes without an exception, by every URL import, by the mode-switch
flush and by every reset; a batch aborted mid-loop can instead leave
appended tables without their identifiers. -/
theorem c3_amended :
    (∀ fs : List UploadedFile,
      List.Forall₂ (fun t n => ∃ f, f ∈ fs ∧ f.name = n ∧ acceptedTable f = some t)
        (processLoop fs).tables (processLoop fs).names) ∧
    (∀ (s : SessionState) (files : List UploadedFile),
      statePaired s → (processLoop (filesToProcess s files)).aborted = false →
      statePaired (runLocalBatch s files)) ∧
    (∀ (s : SessionState) (link : String) (fetch : String → Option DataFrame),
      statePaired s → statePaired (runUrlImport s link fetch)) ∧
    (∀ s : SessionState, statePaired (reset_state s) ∧ statePaired (change_on_api_key s) ∧
      (statePaired s →
        statePaired (flushIfCloud s) ∧ statePaired (reset_conversation s) ∧
        statePaired (change_on_lan s))) := by
  refine ⟨processLoop_pairs, ?_, ?_, ?_⟩
  · intro s files hp hna
    unfold runLocalBatch
    by_cases he : (filesToProcess s files).isEmpty = true
    · rw [if_pos he]
      exact flushIfCloud_paired s hp
    · rw [if_neg he]
      rw [if_neg (by rw [hna]; exact Bool.false_ne_true)]
      unfold statePaired
      simp only [List.length_append]
      rw [processLoop_len]
      have hq := flushIfCloud_paired s hp
      unfold statePaired at hq
      rw [hq]
  · intro s link fetch hp
    cases hc : classifyUrl link with
    | invalid => rw [runUrlImport_invalid s link fetch hc]; exact hp
    | directCsv url vfn =>
      rw [runUrlImport_direct s link fetch url vfn hc]
      exact urlPipeline_paired s url vfn fetch hp
    | gsheet url vfn =>
      rw [runUrlImport_gsheet s link fetch url vfn hc]
      exact urlPipeline_paired s url vfn fetch hp
  · intro s
    exact ⟨rfl, rfl, fun hp => ⟨flushIfCloud_paired s hp, hp, hp⟩⟩

/-- C3, witness: the pairing conjunct applied to a concrete completing
batch. -/
theorem c3_amended_witness :
    statePaired s0 ∧ (processLoop (filesToProcess s0 [fileGood])).aborted = false ∧
    statePaired (runLocalBatch s0 [fileGood]) :=
  ⟨rfl, by decide, c3_amended.2.1 s0 [fileGood] rfl (by decide)⟩

/-- Well-formed CSV upload used in the agent-staleness counterexample. -/
def fileD : UploadedFile := ⟨"d.csv", some dfGood⟩

/-- Corrupt CSV upload used in the agent-staleness counterexample. -/
def fileE : UploadedFile := ⟨"e.csv", none⟩

/-- Session already holding one local table and a live agent handle. -/
def s4 : SessionState := ⟨[], ["p.csv"], [dfGood], some (), some (), some (), "k"⟩

/-- C4, counterexample.  A batch that successfully appends one table and
then hits a reader exception never reaches the `agent_executor` pop at
app.py line 362: a table was added but the Agent Handle stays live. -/
theorem c4_counterexample :
    s4.final_df.length = 1 ∧ s4.agent_executor = some () ∧
    (runLocalBatch s4 [fileD, fileE]).final_df.length = 2 ∧
    (runLocalBatch s4 [fileD, fileE]).agent_executor = some () := by decide

/-- C4, amended.  Every local batch that reaches its post-loop
bookkeeping (at least one not-yet-tracked file and no exception) — in
particular every completed batch that added a table — and every
successful URL import leaves the Agent Handle removed from the session. -/
theorem c4_amended :
    (∀ (s : SessionState) (files : List UploadedFile),
      (filesToProcess s files).isEmpty = false →
      (processLoop (filesToProcess s files)).aborted = false →
      (runLocalBatch s files).agent_executor = none) ∧
    (∀ (s : SessionState) (link : String) (fetch : String → Option DataFrame),
      urlImportOk link fetch = true →
      (runUrlImport s link fetch).agent_executor = none) := by
  constructor
  · intro s files he ha
    unfold runLocalBatch
    rw [if_neg (by rw [he]; exact Bool.false_ne_true),
        if_neg (by rw [ha]; exact Bool.false_ne_true)]
  · intro s link fetch h
    cases hc : classifyUrl link with
    | invalid => rw [urlImportOk_invalid link fetch hc] at h; cases h
    | directCsv url vfn =>
      rw [urlImportOk_direct link fetch url vfn hc] at h
      rw [runUrlImport_direct s link fetch url vfn hc]
      obtain ⟨df, hf, h1, h2, hst⟩ := urlPipeline_ok s url vfn fetch h
      rw [hst]
    | gsheet url vfn =>
      rw [urlImportOk_gsheet link fetch url vfn hc] at h
      rw [runUrlImport_gsheet s link fetch url vfn hc]
      obtain ⟨df, hf, h1, h2, hst⟩ := urlPipeline_ok s url vfn fetch h
      rw [hst]

/-- Fresh CSV upload used to witness agent invalidation. -/
def fileF : UploadedFile := ⟨"f.csv", some dfGood⟩

/-- C4, witness: the local conjunct applied to a concrete batch. -/
theorem c4_amended_witness :
    (filesToProcess s0 [fileF]).isEmpty = false ∧
    (processLoop (filesToProcess s0 [fileF])).aborted = false ∧
    (runLocalBatch s0 [fileF]).agent_executor = none :=
  ⟨by decide, by decide, c4_amended.1 s0 [fileF] (by decide) (by decide)⟩

/-- C5.  When any tracked identifier carries the cloud marker, the whole
Working Table Set and tracked-identifier list are flushed before the
local batch runs: afterwards `final_df` holds exactly the tables the new
batch produced, and (when the loop completes) the identifiers are exactly
its new names. -/
theorem c5_mode_switch_flush (s : SessionState) (files : List UploadedFile)
    (h : s.processed_files.any cloudMarked = true) :
    (runLocalBatch s files).final_df = (processLoop files).tables ∧
    ((processLoop files).aborted = false →
      (runLocalBatch s files).processed_files = (processLoop files).names) := by
  have hf : flushIfCloud s = { s with final_df := [], processed_files := [] } := by
    unfold flushIfCloud
    rw [if_pos h]
  have hfts : filesToProcess s files = files := by
    unfold filesToProcess
    rw [hf]
    exact List.filter_eq_self.mpr (fun a _ => rfl)
  unfold runLocalBatch
  rw [hfts, hf]
  by_cases he : files.isEmpty = true
  · rw [if_pos he]
    have hnil : files = [] := List.isEmpty_iff.mp he
    subst hnil
    exact ⟨rfl, fun _ => rfl⟩
  · rw [if_neg he]
    by_cases ha : (processLoop files).aborted = true
    · rw [if_pos ha]
      constructor
      · simp
      · intro hc; rw [hc] at ha; cases ha
    · rw [if_neg ha]
      exact ⟨by simp, fun _ => by simp⟩

/-- Session holding cloud-marked data, for the mode-switch witness. -/
def s5 : SessionState := ⟨[], ["GSheet_old"], [dfGood], some (), some (), some (), "k"⟩

/-- Fresh CSV upload used in the mode-switch witness. -/
def fileH : UploadedFile := ⟨"h.csv", some dfGood⟩

/-- C5, witness: a concrete cloud-to-local switch. -/
theorem c5_witness :
    s5.processed_files.any cloudMarked = true ∧
    (runLocalBatch s5 [fileH]).final_df = (processLoop [fileH]).tables :=
  ⟨by decide, (c5_mode_switch_flush s5 [fileH] (by decide)).1⟩

/-- C6.  Every successful URL import overwrites: afterwards the Working
Table Set holds exactly one table and the tracked list exactly one
cloud-marked identifier, regardless of the prior state. -/
theorem c6_url_overwrite (s : SessionState) (link : String)
    (fetch : String → Option DataFrame) (h : urlImportOk link fetch = true) :
    ∃ df v, (runUrlImport s link fetch).final_df = [df] ∧
      (runUrlImport s link fetch).processed_files = [v] ∧ cloudMarked v = true := by
  rcases classifyUrl_shapes link with hc | hc | ⟨sid, hc⟩
  · rw [urlImportOk_invalid link fetch hc] at h; cases h
  · rw [urlImportOk_direct link fetch link ("GSheet_" ++ lastComponent link) hc] at h
    rw [runUrlImport_direct s link fetch link ("GSheet_" ++ lastComponent link) hc]
    obtain ⟨df, hfe, h1, h2, hst⟩ :=
      urlPipeline_ok s link ("GSheet_" ++ lastComponent link) fetch h
    rw [hst]
    exact ⟨dedupDF (cleanCounts df).1, "GSheet_" ++ lastComponent link, rfl, rfl,
           cloudMarked_append _⟩
  · rw [urlImportOk_gsheet link fetch (exportUrlOf sid (findGid link.data))
        ("GSheet_" ++ String.mk sid) hc] at h
    rw [runUrlImport_gsheet s link fetch (exportUrlOf sid (findGid link.data))
        ("GSheet_" ++ String.mk sid) hc]
    obtain ⟨df, hfe, h1, h2, hst⟩ :=
      urlPipeline_ok s (exportUrlOf sid (findGid link.data)) ("GSheet_" ++ String.mk sid) fetch h
    rw [hst]
    exact ⟨dedupDF (cleanCounts df).1, "GSheet_" ++ String.mk sid, rfl, rfl,
           cloudMarked_append _⟩

/-- C6, witness: a concrete direct-CSV import over an empty session. -/
theorem c6_witness :
    urlImportOk "http://host/data.csv" (fun _ => some dfGood) = true ∧
    ∃ df v,
      (runUrlImport s0 "http://host/data.csv" (fun _ => some dfGood)).final_df = [df] ∧
      (runUrlImport s0 "http://host/data.csv" (fun _ => some dfGood)).processed_files = [v] ∧
      cloudMarked v = true :=
  ⟨by decide, c6_url_overwrite s0 "http://host/data.csv" (fun _ => some dfGood) (by decide)⟩

/-- Link that both contains a `/d/<id>` segment and ends in `.csv`. -/
def urlBoth : String := "https://site/d/abc123/data.csv"

/-- C7, counterexample.  The claim says every URL containing a `/d/<id>`
segment is treated as a hosted-spreadsheet export.  The code checks the
`.csv` suffix first (app.py line 399), so this link — which contains
`/d/abc123` — is classified as a direct CSV link instead. -/
theorem c7_counterexample :
    (findDId urlBoth.data).isSome = true ∧
    classifyUrl urlBoth = UrlClass.directCsv urlBoth "GSheet_data.csv" ∧
    isGsheetClass (classifyUrl urlBoth) = false := by decide

/-- C7, amended.  A URL ending in `.csv` is always treated as a direct
CSV link, even when it contains a `/d/<id>` segment; a URL not ending in
`.csv` that contains a `/d/<id>` segment is treated as a hosted
spreadsheet, exporting the tab named by a `[?#]gid=<digits>` match or the
first tab when there is none; a URL with neither fails as invalid. -/
theorem c7_amended (link : String) :
    (endsWithPy link ".csv" = true →
      classifyUrl link = UrlClass.directCsv link ("GSheet_" ++ lastComponent link)) ∧
    (endsWithPy link ".csv" = false → ∀ sid, findDId link.data = some sid →
      classifyUrl link =
        UrlClass.gsheet (exportUrlOf sid (findGid link.data)) ("GSheet_" ++ String.mk sid)) ∧
    (endsWithPy link ".csv" = false → findDId link.data = none →
      classifyUrl link = UrlClass.invalid) := by
  refine ⟨fun h => ?_, fun h sid hs => ?_, fun h hn => ?_⟩
  · unfold classifyUrl
    rw [h]
    simp
  · unfold classifyUrl
    rw [h, hs]
    simp
  · unfold classifyUrl
    rw [h, hn]
    simp

/-- Hosted-spreadsheet link with an explicit tab id. -/
def gLink : String := "https://docs.google.com/spreadsheets/d/abc/edit#gid=55"

/-- C7, witness: the hosted-spreadsheet conjunct at a concrete link. -/
theorem c7_amended_witness :
    endsWithPy gLink ".csv" = false ∧ findDId gLink.data = some "abc".data ∧
    classifyUrl gLink =
      UrlClass.gsheet (exportUrlOf "abc".data (findGid gLink.data))
        ("GSheet_" ++ String.mk "abc".data) :=
  ⟨by decide, by decide, (c7_amended gLink).2.1 (by decide) "abc".data (by decide)⟩

/-- Ordinary local CSV upload. -/
def fileLocalX : UploadedFile := ⟨"x.csv", some dfGood⟩

/-- Local CSV upload whose own filename starts with the cloud marker. -/
def fileTricky : UploadedFile := ⟨"GSheet_y.csv", some dfGood⟩

/-- Session after a first local batch ingesting both files above. -/
def s8 : SessionState := runLocalBatch s0 [fileLocalX, fileTricky]

/-- C8, counterexample.  Re-submitting the already-tracked local file
`GSheet_y.csv` is not a no-op: its name trips the cloud-marker check at
app.py line 268, so the whole table set is flushed and the file is
re-ingested — the Working Table Set shrinks from 2 tables to 1. -/
theorem c8_counterexample :
    s8.processed_files.contains fileTricky.name = true ∧
    s8.final_df.length = 2 ∧
    (runLocalBatch s8 [fileTricky]).final_df.length = 1 := by decide

/-- C8, amended.  Provided no tracked identifier carries the cloud
marker (as for any batch of ordinarily-named local files), submitting
only files whose identifiers are already tracked is a complete no-op:
the session state is unchanged. -/
theorem c8_amended (s : SessionState) (files : List UploadedFile)
    (hnc : s.processed_files.any cloudMarked = false)
    (hall : ∀ f ∈ files, s.processed_files.contains f.name = true) :
    runLocalBatch s files = s := by
  have hf : flushIfCloud s = s := by
    unfold flushIfCloud
    rw [if_neg (by rw [hnc]; exact Bool.false_ne_true)]
  have hfts : filesToProcess s files = [] := by
    unfold filesToProcess
    rw [hf]
    exact List.filter_eq_nil_iff.mpr (fun a ha => by rw [hall a ha]; decide)
  unfold runLocalBatch
  rw [hfts, hf]
  rw [if_pos (show ([] : List UploadedFile).isEmpty = true from rfl)]

/-- Session tracking one ordinary local file. -/
def s8w : SessionState := ⟨[], ["x.csv"], [dfGood], some (), some (), some (), "k"⟩

/-- C8, witness: re-submitting a tracked ordinary file changes nothing. -/
theorem c8_amended_witness :
    s8w.processed_files.any cloudMarked = false ∧
    runLocalBatch s8w [fileLocalX] = s8w :=
  ⟨by decide, c8_amended s8w [fileLocalX] (by decide) (by decide)⟩
